import Mathlib

/-!
Shallow embedding of the content-strategy service of the Pinterest automation
bot (src/services/content_strategy.py together with src/config/settings.py).

Python strings are modelled as Lean `String` (both count characters, so
Python `len` and slicing `s[:n]` agree with `String.length` and taking a
prefix of the character list).  Machine randomness (`random.choice`,
`random.choices`, `random.random`) is modelled by explicit draw parameters:
an index into the candidate list for a `choice`, a `Bool` for a probability
test, and an abstract draw function for the weighted categorical draw.
Fallible operations (sqlite queries, the strategy-synthesis body guarded by
`try/except`) are modelled as `Except String` values passed in, so both the
success and the error branch of each handler are visible.
`list(set(xs))` is modelled as `xs.dedup`: an enumeration of the distinct
elements; CPython's enumeration order is unspecified and no claim depends
on it.  `json.loads(json.dumps(x))` round-trips the strategy dictionaries
involved, so a stored `strategy_data` blob is modelled as the `Strategy`
value it deserialises to.
-/

/-- Python `random.choice(l)` with the drawn index made explicit: index
`i % l.length` of `l`, with a default for the (never exercised) empty case. -/
def py_choice (l : List α) (i : Nat) (d : α) : α :=
  l.getD (i % l.length) d

/-- Python slicing `s[:n]` on a string: the first `n` characters. -/
def str_take (s : String) (n : Nat) : String :=
  ⟨s.data.take n⟩

/-- Python `list(set(xs))`: the distinct elements of `xs`. -/
def py_set (xs : List String) : List String :=
  xs.dedup

/-- Python `s.lower()`. -/
def py_lower (s : String) : String :=
  ⟨s.data.map Char.toLower⟩

/-- Word accumulator behind `py_split`: `acc` holds the current word
reversed; whitespace flushes it. -/
def py_split_chars : List Char → List Char → List (List Char)
  | acc, [] => if acc.isEmpty then [] else [acc.reverse]
  | acc, c :: cs =>
    if c.isWhitespace then
      (if acc.isEmpty then [] else [acc.reverse]) ++ py_split_chars [] cs
    else py_split_chars (c :: acc) cs

/-- Python `s.split()`: split on whitespace runs, no empty fragments. -/
def py_split (s : String) : List String :=
  (py_split_chars [] s.data).map (fun w => ⟨w⟩)

/-- Python `s.strip()`: remove leading and trailing whitespace. -/
def py_strip (s : String) : String :=
  ⟨((s.data.dropWhile Char.isWhitespace).reverse.dropWhile Char.isWhitespace).reverse⟩

/-- Python `str.title()` character walk: uppercase a letter that starts a
word, lowercase the rest. -/
def py_title_aux : Bool → List Char → List Char
  | _, [] => []
  | prevAlpha, c :: cs =>
    (if prevAlpha then c.toLower else c.toUpper) :: py_title_aux c.isAlpha cs

/-- Python `s.title()`. -/
def py_title (s : String) : String :=
  ⟨py_title_aux false s.data⟩

/-- Configuration of one niche (an entry of `Settings.CONTENT_TEMPLATES`). -/
structure NicheConfig where
  prompt_templates : List String
  hashtags : List String
  boards : List String
deriving Repr, DecidableEq

/-- The slice of `config/settings.py` the strategy service consumes.
`DEFAULT_BOARDS` keeps only the board names (the service never reads the
descriptions). -/
structure Settings where
  TARGET_NICHES : List String
  POSTING_TIMES : List String
  POSTS_PER_DAY : Nat
  SKIP_WEEKENDS : Bool
  WEBSITE_URL : String
  DEFAULT_BOARDS : List String
  CONTENT_TEMPLATES : List (String × NicheConfig)
deriving Repr, DecidableEq

/-- `Settings.get_niche_config`: the niche's template entry, defaulting to
the `lifestyle` entry. -/
def Settings.get_niche_config (s : Settings) (niche : String) : NicheConfig :=
  match s.CONTENT_TEMPLATES.lookup niche with
  | some c => c
  | none => (s.CONTENT_TEMPLATES.lookup "lifestyle").getD ⟨[], [], []⟩

/-- The strategy record assembled by `_generate_strategy_for_date`. -/
structure Strategy where
  date : String
  niche : String
  theme : String
  keywords : List String
  prompt : String
  title : String
  description : String
  board_name : String
  board_id : Option String
  style : String
  dimensions : String
  website_link : String
  alt_text : String
  hashtags : List String
  optimal_posting_time : String
deriving Repr, DecidableEq

/-- The dimension lookup table inside `_select_dimensions`. -/
def niche_dimensions : List (String × String) :=
  [("lifestyle", "standard"), ("home_decor", "standard"),
   ("wellness", "standard"), ("fashion", "standard"),
   ("food", "square"), ("travel", "standard"),
   ("productivity", "standard"), ("diy", "standard"),
   ("inspiration", "story"), ("quotes", "story")]

/-- `_select_dimensions`: dictionary lookup with default `"standard"`
(`dict.get` cannot raise, so the handler branch is dead code). -/
def select_dimensions (niche : String) : String :=
  (niche_dimensions.lookup niche).getD "standard"

/-- `should_post_today`, with the clock made explicit: `weekday` is Python
`datetime.weekday()` (Monday = 0 … Sunday = 6) and `posts_today` the count
returned by `_count_posts_today`. -/
def should_post_today (skip_weekends : Bool) (weekday : Nat)
    (posts_today : Nat) (posts_per_day : Nat) : Bool :=
  if skip_weekends && decide (5 ≤ weekday) then false
  else if decide (posts_per_day ≤ posts_today) then false
  else true

/-- `_count_posts_today`: the `COUNT(*)` query result, with the handler
returning 0 on any sqlite error. -/
def count_posts_today (query_result : Except String Nat) : Nat :=
  match query_result with
  | .ok n => n
  | .error _ => 0

/-- The outer `try/except` of `should_post_today`: any error escaping the
body makes the gate return `True`. -/
def should_post_today_guarded (body : Except String Bool) : Bool :=
  match body with
  | .ok b => b
  | .error _ => true

/-- `_get_fallback_strategy`; `today` is `datetime.now().strftime('%Y-%m-%d')`. -/
def get_fallback_strategy (s : Settings) (today : String) : Strategy :=
  { date := today
    niche := "lifestyle"
    theme := "daily inspiration"
    keywords := ["#inspiration", "#lifestyle", "#pinterest"]
    prompt := "Beautiful daily inspiration, pinterest aesthetic, high quality"
    title := "Daily Inspiration Ideas"
    description := "Beautiful inspiration for your day. Save this pin! #inspiration #lifestyle"
    board_name := s.DEFAULT_BOARDS.headD ""
    board_id := none
    style := "standard"
    dimensions := "standard"
    website_link := s.WEBSITE_URL
    alt_text := "Daily inspiration pinterest pin"
    hashtags := ["#inspiration", "#lifestyle", "#pinterest"]
    optimal_posting_time := "15:00" }

/-- The weight `_select_optimal_niche` computes for one niche: base 1,
tripled for a top-3 performer, doubled for a top-5 (not top-3) performer,
divided by `recent_usage + 1` when the niche was used recently. -/
def niche_weight (top_performing recent_niches : List String)
    (niche : String) : ℚ :=
  let base : ℚ := 1
  let base := if niche ∈ top_performing.take 3 then base * 3
    else if niche ∈ top_performing.take 5 then base * 2
    else base
  let recent_usage := recent_niches.count niche
  if recent_usage > 0 then base / (recent_usage + 1) else base

/-- `_select_optimal_niche`: weighted categorical draw over
`TARGET_NICHES` when a ranking exists, uniform `random.choice` otherwise.
The two random sources are abstract draw functions. -/
def select_optimal_niche (s : Settings) (top_performing recent_niches : List String)
    (weighted_draw : List String → List ℚ → String)
    (uniform_draw : List String → String) : String :=
  if top_performing.isEmpty then uniform_draw s.TARGET_NICHES
  else weighted_draw s.TARGET_NICHES
    (s.TARGET_NICHES.map (niche_weight top_performing recent_niches))

/-- Bool test for `sub` being a contiguous substring of `l` (Python `in`). -/
def char_list_has_infix (sub l : List Char) : Bool :=
  (List.range (l.length + 1)).any (fun i => sub.isPrefixOf (l.drop i))

/-- Python `sub in s` on strings. -/
def str_contains (s sub : String) : Bool :=
  char_list_has_infix sub.data s.data

/-- The per-niche theme candidates inside `_generate_theme`. -/
def niche_themes : List (String × List String) :=
  [("lifestyle", ["minimalist living", "cozy home", "morning routine", "self-care", "productivity"]),
   ("home_decor", ["scandinavian style", "bohemian decor", "modern farmhouse", "small space", "DIY projects"]),
   ("wellness", ["mindfulness", "yoga practice", "healthy habits", "meditation", "mental health"]),
   ("fashion", ["capsule wardrobe", "sustainable fashion", "outfit ideas", "accessories", "style tips"]),
   ("food", ["healthy recipes", "meal prep", "comfort food", "seasonal cooking", "plant-based"]),
   ("travel", ["wanderlust", "travel tips", "bucket list", "adventure", "cultural experiences"]),
   ("productivity", ["organization", "time management", "goal setting", "workspace", "habits"]),
   ("diy", ["craft projects", "upcycling", "handmade", "creative ideas", "tutorials"]),
   ("inspiration", ["motivational quotes", "personal growth", "success mindset", "positivity", "dreams"]),
   ("quotes", ["daily motivation", "life lessons", "wisdom", "encouragement", "reflection"])]

/-- `_generate_theme`.  `use_seasonal` is the outcome of
`random.random() < 0.3`, `use_trending` of `random.random() < 0.2`. -/
def generate_theme (niche seasonal : String) (trending : List String)
    (base_pick : Nat) (use_seasonal use_trending : Bool) (trend_pick : Nat) : String :=
  let base_themes := (niche_themes.lookup niche).getD ["inspiration", "lifestyle", "creativity"]
  let theme :=
    if (seasonal != "") && use_seasonal then
      seasonal ++ " " ++ py_choice base_themes base_pick ""
    else py_choice base_themes base_pick ""
  let theme :=
    if (!trending.isEmpty) && use_trending then
      py_choice trending trend_pick "" ++ " " ++ theme
    else theme
  py_strip theme

/-- `_generate_keywords`: niche hashtags, lowercase word-split of the theme,
first 3 trending keywords; `list(set(...))`; first 8. -/
def generate_keywords (s : Settings) (niche theme : String)
    (trending : List String) : List String :=
  let base_keywords := (s.get_niche_config niche).hashtags
  let theme_keywords := py_split (py_lower theme)
  let all_keywords := py_set (base_keywords ++ theme_keywords ++ trending.take 3)
  all_keywords.take 8

/-- The fixed enhancement pool inside `_generate_ai_prompt`. -/
def prompt_enhancements : List String :=
  ["pinterest aesthetic", "vertical composition", "bright and airy",
   "clean composition", "eye-catching", "shareable content"]

/-- `_generate_ai_prompt`: a drawn template with `{theme}` substituted plus
two sampled enhancements.  `random.choice` on an empty template list raises,
and the handler returns the static fallback prompt; that is the `isEmpty`
branch (the bundled configurations never hit it). -/
def generate_ai_prompt (theme : String) (cfg : NicheConfig)
    (tpick e1 e2 : Nat) : String :=
  if cfg.prompt_templates.isEmpty then
    "Beautiful " ++ theme ++ " inspiration, pinterest style, high quality"
  else
    let prompt := (py_choice cfg.prompt_templates tpick "").replace "{theme}" theme
    prompt ++ ", " ++ py_choice prompt_enhancements e1 ""
      ++ ", " ++ py_choice prompt_enhancements e2 ""

/-- The seven fixed title templates inside `_generate_title`. -/
def title_templates : List String :=
  ["{theme} Ideas That Will Transform Your Life",
   "Stunning {theme} Inspiration You Need to See",
   "{theme} Secrets for a Better Lifestyle",
   "The Ultimate {theme} Guide",
   "{theme} Tips That Actually Work",
   "Beautiful {theme} Ideas to Try Today",
   "{theme} Inspiration for Your Pinterest Board"]

/-- `_generate_title`: drawn template, title-cased theme substituted,
hard-truncated to 100 characters.  (The Python function also receives the
keyword list but never reads it.) -/
def generate_title (theme : String) (pick : Nat) : String :=
  let title := (py_choice title_templates pick "").replace "{theme}" (py_title theme)
  str_take title 100

/-- The four description f-string templates inside `_generate_description`. -/
def description_templates (theme niche : String) : List String :=
  ["Discover amazing " ++ theme ++ " ideas that will inspire your " ++ niche
     ++ " journey. Save this pin for daily motivation and share with friends who love "
     ++ theme ++ "!",
   "Looking for " ++ theme ++ " inspiration? This beautiful collection of " ++ niche
     ++ " ideas is perfect for your Pinterest boards. Click to see more!",
   "Transform your life with these " ++ theme ++ " ideas. Perfect " ++ niche
     ++ " inspiration for anyone looking to create something beautiful.",
   "Get inspired with these stunning " ++ theme ++ " ideas. Save this pin to your "
     ++ niche ++ " board and visit our website for more inspiration!"]

/-- The fixed call-to-action pool inside `_generate_description`. -/
def cta_options : List String :=
  ["Visit our website for more inspiration!", "Click the link for the full guide!",
   "Save this pin and follow for more ideas!", "Get more tips on our website!"]

/-- `_generate_description`: drawn template, first 5 keywords space-joined,
drawn call-to-action, hard-truncated to 500 characters. -/
def generate_description (theme : String) (keywords : List String)
    (niche : String) (pick cta_pick : Nat) : String :=
  let description := py_choice (description_templates theme niche) pick ""
  let hashtags := String.intercalate " " (keywords.take 5)
  let description := description ++ "\n\n" ++ hashtags
  let description := description ++ " " ++ py_choice cta_options cta_pick ""
  str_take description 500

/-- `_generate_alt_text`: fixed template with theme and first 3 keywords,
truncated to 500 characters. -/
def generate_alt_text (theme : String) (keywords : List String) : String :=
  str_take ("Pinterest pin showing " ++ theme ++ " inspiration with "
    ++ String.intercalate ", " (keywords.take 3)) 500

/-- Python `kw.replace('#', '')`: drop every `#`. -/
def strip_hash (s : String) : String :=
  ⟨s.data.filter (fun c => c ≠ '#')⟩

/-- `_generate_hashtags`: niche hashtags united with re-prefixed keywords,
extended with four generic platform hashtags, deduplicated, first 10. -/
def generate_hashtags (s : Settings) (niche : String)
    (keywords : List String) : List String :=
  let base_hashtags := (s.get_niche_config niche).hashtags
  let all_hashtags := py_set (base_hashtags ++ keywords.map (fun kw => "#" ++ strip_hash kw))
  let all_hashtags := all_hashtags ++ ["#pinterest", "#inspiration", "#ideas", "#lifestyle"]
  (py_set all_hashtags).take 10

/-- `_select_board`: random choice from the niche's boards united with the
default boards (nonempty in every bundled configuration). -/
def select_board (s : Settings) (cfg : NicheConfig) (pick : Nat) : String :=
  let available_boards := cfg.boards ++ s.DEFAULT_BOARDS
  if available_boards.isEmpty then s.DEFAULT_BOARDS.headD ""
  else py_choice available_boards pick ""

/-- The per-niche style lists inside `_select_style`. -/
def niche_styles : List (String × List String) :=
  [("lifestyle", ["bright", "minimal", "cozy"]),
   ("home_decor", ["elegant", "modern", "cozy"]),
   ("wellness", ["peaceful", "natural", "soft"]),
   ("fashion", ["stylish", "trendy", "elegant"]),
   ("food", ["appetizing", "rustic", "bright"]),
   ("travel", ["adventurous", "scenic", "vibrant"]),
   ("productivity", ["clean", "organized", "modern"]),
   ("diy", ["creative", "rustic", "colorful"]),
   ("inspiration", ["uplifting", "bright", "motivational"]),
   ("quotes", ["elegant", "minimal", "inspiring"])]

/-- `_select_style`: per-niche list, extended with seasonal words when the
seasonal theme mentions a season, then one random choice. -/
def select_style (niche seasonal : String) (pick : Nat) : String :=
  let styles := (niche_styles.lookup niche).getD ["standard", "bright", "elegant"]
  let styles :=
    if seasonal != "" then
      if str_contains (py_lower seasonal) "winter" then styles ++ ["cozy", "warm", "festive"]
      else if str_contains (py_lower seasonal) "summer" then styles ++ ["bright", "vibrant", "fresh"]
      else if str_contains (py_lower seasonal) "spring" then styles ++ ["fresh", "pastel", "blooming"]
      else if str_contains (py_lower seasonal) "fall" then styles ++ ["warm", "rustic", "cozy"]
      else styles
    else styles
  py_choice styles pick ""

/-- `_create_tracking_link`; `date_term` is `datetime.now().strftime('%Y%m%d')`.
`urlencode` percent-escaping is omitted: no claim depends on the encoding
and the substituted values carry no reserved characters after the space
replacement the code performs on the theme. -/
def create_tracking_link (s : Settings) (niche theme date_term : String) : String :=
  s.WEBSITE_URL ++ "?utm_source=pinterest&utm_medium=social&utm_campaign=pinterest_automation&utm_content="
    ++ niche ++ "_" ++ theme.replace " " "_" ++ "&utm_term=" ++ date_term

/-- The per-niche posting-time table inside `_get_optimal_posting_time`. -/
def niche_posting_times : List (String × String) :=
  [("lifestyle", "15:00"), ("home_decor", "20:00"), ("wellness", "09:00"),
   ("fashion", "15:00"), ("food", "12:00"), ("travel", "20:00"),
   ("productivity", "09:00"), ("diy", "15:00"), ("inspiration", "09:00"),
   ("quotes", "09:00")]

/-- `_get_optimal_posting_time`: table lookup, falling back to a random
configured posting time. -/
def get_optimal_posting_time (s : Settings) (niche : String) (pick : Nat) : String :=
  match niche_posting_times.lookup niche with
  | some t => t
  | none => py_choice s.POSTING_TIMES pick ""

/-- One run's worth of random draws for strategy synthesis. -/
structure Draws where
  base_pick : Nat
  use_seasonal : Bool
  use_trending : Bool
  trend_pick : Nat
  prompt_pick : Nat
  enh_pick1 : Nat
  enh_pick2 : Nat
  title_pick : Nat
  desc_pick : Nat
  cta_pick : Nat
  board_pick : Nat
  style_pick : Nat
  time_pick : Nat
deriving Repr, DecidableEq

/-- The successful body of `_generate_strategy_for_date` (lines 126-171):
assemble the full strategy record for `date` from the selected niche, the
seasonal theme, the trending keywords and the random draws.
`_get_board_id` always returns `None` in the source. -/
def synthesize_strategy (s : Settings) (date date_term niche seasonal : String)
    (trending : List String) (r : Draws) : Strategy :=
  let cfg := s.get_niche_config niche
  let theme := generate_theme niche seasonal trending r.base_pick r.use_seasonal
    r.use_trending r.trend_pick
  let keywords := generate_keywords s niche theme trending
  { date := date
    niche := niche
    theme := theme
    keywords := keywords
    prompt := generate_ai_prompt theme cfg r.prompt_pick r.enh_pick1 r.enh_pick2
    title := generate_title theme r.title_pick
    description := generate_description theme keywords niche r.desc_pick r.cta_pick
    board_name := select_board s cfg r.board_pick
    board_id := none
    style := select_style niche seasonal r.style_pick
    dimensions := select_dimensions niche
    website_link := create_tracking_link s niche theme date_term
    alt_text := generate_alt_text theme keywords
    hashtags := generate_hashtags s niche keywords
    optimal_posting_time := get_optimal_posting_time s niche r.time_pick }

/-- `_generate_strategy_for_date` with its `try/except`: `outcome` records
whether any step of the body raised; on error the handler returns
`_get_fallback_strategy()`, whose date is `today`, not `date`. -/
def generate_strategy_for_date (s : Settings) (today date_term date niche seasonal : String)
    (trending : List String) (r : Draws) (outcome : Except String Unit) : Strategy :=
  match outcome with
  | .ok _ => synthesize_strategy s date date_term niche seasonal trending r
  | .error _ => get_fallback_strategy s today

/-- `get_batch_strategies(count)`: one strategy per future date
`today + 1 … today + count`; per-iteration inputs are indexed by `i`.
`add_days` is the calendar shift `(datetime.now() + timedelta(days=k))`. -/
def get_batch_strategies (s : Settings) (today date_term : String)
    (add_days : String → Nat → String) (count : Nat)
    (niche seasonal : Nat → String) (trending : Nat → List String)
    (draws : Nat → Draws) (outcome : Nat → Except String Unit) : List Strategy :=
  (List.range count).map (fun i =>
    generate_strategy_for_date s today date_term (add_days today (i + 1))
      (niche i) (seasonal i) (trending i) (draws i) (outcome i))

/-- One row of the `prepared_content` table; `strategy_data` is the
deserialised form of the stored JSON blob, `created_at` the insertion
timestamp the `ORDER BY` sorts on. -/
structure PreparedRow where
  strategy_data : Strategy
  image_path : String
  scheduled_date : String
  status : String
  created_at : Nat
deriving Repr, DecidableEq

/-- The sqlite state `get_daily_strategy` touches: the `prepared_content`
table and the `content_strategies` table (kept as the stored records). -/
structure StrategyDB where
  prepared : List PreparedRow
  strategies : List Strategy
deriving Repr, DecidableEq

/-- The `ORDER BY created_at ASC` comparison. -/
def created_at_le (a b : PreparedRow) : Prop :=
  a.created_at ≤ b.created_at

instance : DecidableRel created_at_le :=
  fun a b => Nat.decLe a.created_at b.created_at

/-- `_get_prepared_content_for_date`: the first `ready` row scheduled for
`date` in `created_at` order, if any. -/
def get_prepared_content_for_date (db : StrategyDB) (date : String) : Option PreparedRow :=
  let rows := db.prepared.filter (fun r => r.scheduled_date == date && r.status == "ready")
  (List.insertionSort created_at_le rows).head?

/-- `_save_strategy`: insert the strategy into `content_strategies`. -/
def save_strategy (db : StrategyDB) (st : Strategy) : StrategyDB :=
  { db with strategies := db.strategies ++ [st] }

/-- `get_daily_strategy`, with the clock (`today`) and the synthesised
strategy (`generated`, the total result of `_generate_strategy_for_date`)
made explicit.  Returns the strategy together with the post-state. -/
def get_daily_strategy (db : StrategyDB) (today : String)
    (generated : Strategy) : Strategy × StrategyDB :=
  match get_prepared_content_for_date db today with
  | some row => (row.strategy_data, db)
  | none => (generated, save_strategy db generated)

/-- One row of `content_strategies` as the analytics query reads it. -/
structure StrategyRecord where
  id : Nat
  niche : String
  created_at : Nat
deriving Repr, DecidableEq

/-- One row of `content_performance`. -/
structure PerformanceRecord where
  strategy_id : Nat
  engagement_rate : ℚ
deriving Repr, DecidableEq

/-- The analytics side of the store: both tables. -/
structure AnalyticsDB where
  strategies : List StrategyRecord
  performance : List PerformanceRecord
deriving Repr, DecidableEq

/-- All engagement rates joined to strategies of `niche` created after
`cutoff` (the 30-day window edge): the non-NULL values the SQL `AVG`
aggregates per group. -/
def niche_engagement_rates (db : AnalyticsDB) (cutoff : Nat) (niche : String) : List ℚ :=
  ((db.strategies.filter (fun r => decide (cutoff < r.created_at) && r.niche == niche)).map
    (fun r => (db.performance.filter (fun p => p.strategy_id == r.id)).map
      (fun p => p.engagement_rate))).flatten

/-- SQL `AVG(cp.engagement_rate)` for one niche group: `NULL` (`none`) when
the `LEFT JOIN` contributed no engagement rows for the niche. -/
def avg_engagement (db : AnalyticsDB) (cutoff : Nat) (niche : String) : Option ℚ :=
  let rates := niche_engagement_rates db cutoff niche
  if rates.isEmpty then none else some (rates.sum / rates.length)

/-- The `GROUP BY cs.niche` groups: distinct niches among strategies inside
the window. -/
def window_niches (db : AnalyticsDB) (cutoff : Nat) : List String :=
  ((db.strategies.filter (fun r => decide (cutoff < r.created_at))).map
    (fun r => r.niche)).dedup

/-- The `ORDER BY avg_engagement DESC` comparison; sqlite sorts `NULL`
below every value, so `NULL` groups come last in descending order. -/
def avg_desc_le (a b : String × Option ℚ) : Bool :=
  match a.2, b.2 with
  | some x, some y => decide (y ≤ x)
  | some _, none => true
  | none, some _ => false
  | none, none => true

/-- The body of `_get_top_performing_niches`: group, average, sort
descending, `LIMIT 5`, then the Python list comprehension drops rows whose
average is `NULL`. -/
def top_performing_query (db : AnalyticsDB) (cutoff : Nat) : List String :=
  let grouped := (window_niches db cutoff).map (fun n => (n, avg_engagement db cutoff n))
  let sorted := List.insertionSort (fun a b => avg_desc_le a b = true) grouped
  ((sorted.take 5).filter (fun row => row.2.isSome)).map (fun row => row.1)

/-- `_get_top_performing_niches` with its handler: empty list on any
storage error. -/
def get_top_performing_niches (res : Except String AnalyticsDB) (cutoff : Nat) : List String :=
  match res with
  | .error _ => []
  | .ok db => top_performing_query db cutoff

/-- The bundled configuration of `config/settings.py` with every
environment default in place (used for concrete instantiations). -/
def default_settings : Settings :=
  { TARGET_NICHES := ["lifestyle", "home decor", "fashion", "food", "travel",
      "wellness", "productivity", "diy", "inspiration", "quotes"]
    POSTING_TIMES := ["09:00", "15:00", "20:00"]
    POSTS_PER_DAY := 3
    SKIP_WEEKENDS := false
    WEBSITE_URL := "https://yourwebsite.com"
    DEFAULT_BOARDS := ["AI Generated Art", "Daily Inspiration",
      "Lifestyle Ideas", "Creative Designs"]
    CONTENT_TEMPLATES :=
      [("lifestyle",
        { prompt_templates :=
            ["Minimalist {theme} inspiration, clean aesthetic, modern design",
             "Cozy {theme} vibes, warm lighting, comfortable atmosphere",
             "Elegant {theme} setup, sophisticated style, premium quality"]
          hashtags := ["#lifestyle", "#inspiration", "#aesthetic", "#modern", "#design"]
          boards := ["Lifestyle Inspiration", "Modern Living", "Daily Inspiration"] }),
       ("home_decor",
        { prompt_templates :=
            ["Beautiful {theme} interior, scandinavian style, natural light",
             "Modern {theme} design, contemporary furniture, stylish decor",
             "Cozy {theme} space, rustic elements, warm atmosphere"]
          hashtags := ["#homedecor", "#interiordesign", "#homedesign", "#decor", "#interior"]
          boards := ["Home Decor Ideas", "Interior Design", "Home Inspiration"] }),
       ("wellness",
        { prompt_templates :=
            ["Peaceful {theme} scene, zen atmosphere, natural elements",
             "Healthy {theme} lifestyle, wellness routine, self-care",
             "Mindful {theme} practice, meditation space, tranquil setting"]
          hashtags := ["#wellness", "#selfcare", "#mindfulness", "#health", "#zen"]
          boards := ["Wellness Journey", "Self Care", "Mindful Living"] })] }

/-- A concrete strategy used as stored prepared content. -/
def witness_strategy : Strategy :=
  get_fallback_strategy default_settings "2025-01-09"

/-- A concrete `ready` prepared-content row for 2025-01-10. -/
def witness_row : PreparedRow :=
  { strategy_data := witness_strategy
    image_path := "./content/pin.png"
    scheduled_date := "2025-01-10"
    status := "ready"
    created_at := 1 }

/-- A concrete store holding exactly the row above. -/
def witness_db : StrategyDB :=
  { prepared := [witness_row], strategies := [] }

/-- A concrete analytics store: the `wellness` strategy has one engagement
row, the `food` strategy none. -/
def witness_analytics : AnalyticsDB :=
  { strategies := [⟨1, "wellness", 100⟩, ⟨2, "food", 100⟩]
    performance := [⟨1, (1 : ℚ) / 2⟩] }

theorem list_take_length_le (l : List α) (n : Nat) : (l.take n).length ≤ n := by
  rw [List.length_take]
  exact Nat.min_le_left _ _

theorem str_take_length_le (s : String) (n : Nat) : (str_take s n).length ≤ n :=
  list_take_length_le s.data n

/-- C7: `_select_dimensions` is a pure function of the niche label alone:
`food` maps to `square`, `quotes` and `inspiration` map to `story`, and
every niche absent from the lookup table maps to `standard`. -/
theorem select_dimensions_spec :
    select_dimensions "food" = "square" ∧
    select_dimensions "quotes" = "story" ∧
    select_dimensions "inspiration" = "story" ∧
    ∀ n : String, n ∉ niche_dimensions.map Prod.fst →
      select_dimensions n = "standard" := by
  refine ⟨rfl, rfl, rfl, ?_⟩
  intro n hn
  simp only [niche_dimensions, List.map_cons, List.map_nil, List.mem_cons,
    List.not_mem_nil, or_false, not_or] at hn
  obtain ⟨h1, h2, h3, h4, h5, h6, h7, h8, h9, h10⟩ := hn
  have e1 : (n == "lifestyle") = false := beq_eq_false_iff_ne.mpr h1
  have e2 : (n == "home_decor") = false := beq_eq_false_iff_ne.mpr h2
  have e3 : (n == "wellness") = false := beq_eq_false_iff_ne.mpr h3
  have e4 : (n == "fashion") = false := beq_eq_false_iff_ne.mpr h4
  have e5 : (n == "food") = false := beq_eq_false_iff_ne.mpr h5
  have e6 : (n == "travel") = false := beq_eq_false_iff_ne.mpr h6
  have e7 : (n == "productivity") = false := beq_eq_false_iff_ne.mpr h7
  have e8 : (n == "diy") = false := beq_eq_false_iff_ne.mpr h8
  have e9 : (n == "inspiration") = false := beq_eq_false_iff_ne.mpr h9
  have e10 : (n == "quotes") = false := beq_eq_false_iff_ne.mpr h10
  simp [select_dimensions, niche_dimensions, List.lookup,
    e1, e2, e3, e4, e5, e6, e7, e8, e9, e10]

/-- Witness for `select_dimensions_spec`: the unlisted niche
`"travel blog"` gets the `standard` dimension class. -/
theorem select_dimensions_spec_witness :
    select_dimensions "travel blog" = "standard" :=
  select_dimensions_spec.2.2.2 "travel blog" (by decide)

/-- C3: the cadence gate returns `false` on a Saturday (5) or Sunday (6)
when weekend-skip is configured, whatever the count; `false` whenever the
day's strategy count has reached the configured cap; and `true` otherwise. -/
theorem should_post_today_spec (skip : Bool) (weekday count cap : Nat) :
    (skip = true → (weekday = 5 ∨ weekday = 6) →
      should_post_today skip weekday count cap = false) ∧
    (cap ≤ count → should_post_today skip weekday count cap = false) ∧
    (weekday < 7 → ¬(skip = true ∧ (weekday = 5 ∨ weekday = 6)) → count < cap →
      should_post_today skip weekday count cap = true) := by
  refine ⟨?_, ?_, ?_⟩
  · intro hs hw
    rcases hw with h | h <;> subst h <;> simp [should_post_today, hs]
  · intro hc
    simp [should_post_today, hc]
  · intro h7 hno hcc
    have h2 : ¬ (cap ≤ count) := by omega
    cases skip with
    | false => simp [should_post_today, h2]
    | true =>
      have hw : ¬ (5 ≤ weekday) := by
        intro hge
        exact hno ⟨rfl, by omega⟩
      simp [should_post_today, hw, h2]

/-- Witness for `should_post_today_spec`: skip-weekends on a Saturday with
count 0 blocks; count 3 with cap 3 on a Wednesday blocks; count 2 with cap
3 on a Wednesday posts. -/
theorem should_post_today_spec_witness :
    should_post_today true 5 0 3 = false ∧
    should_post_today false 2 3 3 = false ∧
    should_post_today false 2 2 3 = true :=
  ⟨(should_post_today_spec true 5 0 3).1 rfl (Or.inl rfl),
   (should_post_today_spec false 2 3 3).2.1 (by decide),
   (should_post_today_spec false 2 2 3).2.2 (by decide) (by decide) (by decide)⟩

/-- C2: whenever the synthesis body raises, `_generate_strategy_for_date`
returns `_get_fallback_strategy()` — the fixed fully-populated record with
niche `lifestyle` and static theme, prompt, title, description, board,
style, dimensions, hashtags and posting time — and, the function being
total, no error propagates past the scheduler boundary. -/
theorem generate_strategy_fallback_spec (s : Settings)
    (today date_term date niche seasonal : String) (trending : List String)
    (r : Draws) (e : String) :
    generate_strategy_for_date s today date_term date niche seasonal trending r
      (Except.error e) = get_fallback_strategy s today ∧
    (get_fallback_strategy s today).niche = "lifestyle" ∧
    (get_fallback_strategy s today).theme = "daily inspiration" ∧
    (get_fallback_strategy s today).keywords = ["#inspiration", "#lifestyle", "#pinterest"] ∧
    (get_fallback_strategy s today).prompt
      = "Beautiful daily inspiration, pinterest aesthetic, high quality" ∧
    (get_fallback_strategy s today).title = "Daily Inspiration Ideas" ∧
    (get_fallback_strategy s today).description
      = "Beautiful inspiration for your day. Save this pin! #inspiration #lifestyle" ∧
    (get_fallback_strategy s today).board_name = s.DEFAULT_BOARDS.headD "" ∧
    (get_fallback_strategy s today).style = "standard" ∧
    (get_fallback_strategy s today).dimensions = "standard" ∧
    (get_fallback_strategy s today).hashtags = ["#inspiration", "#lifestyle", "#pinterest"] ∧
    (get_fallback_strategy s today).optimal_posting_time = "15:00" :=
  ⟨rfl, rfl, rfl, rfl, rfl, rfl, rfl, rfl, rfl, rfl, rfl, rfl⟩

/-- C10: the fallback record carries the current date `today`; hence when
synthesis for a requested target date fails — as in `get_batch_strategies`,
which requests `today+1 … today+count` — the returned strategy is dated
today, not the requested date. -/
theorem fallback_date_spec (s : Settings)
    (today date_term date niche seasonal : String) (trending : List String)
    (r : Draws) (e : String) (add_days : String → Nat → String) (count : Nat)
    (niches seasonals : Nat → String) (trendings : Nat → List String)
    (draws : Nat → Draws) (outcomes : Nat → Except String Unit) (i : Nat) :
    (get_fallback_strategy s today).date = today ∧
    (generate_strategy_for_date s today date_term date niche seasonal trending r
      (Except.error e)).date = today ∧
    (date ≠ today →
      (generate_strategy_for_date s today date_term date niche seasonal trending r
        (Except.error e)).date ≠ date) ∧
    (i < count → outcomes i = Except.error e →
      ∃ st, (get_batch_strategies s today date_term add_days count niches seasonals
          trendings draws outcomes)[i]? = some st ∧ st.date = today) := by
  refine ⟨rfl, rfl, fun hne => ?_, fun hic herr => ?_⟩
  · show today ≠ date
    exact fun hh => hne hh.symm
  · refine ⟨generate_strategy_for_date s today date_term (add_days today (i + 1))
      (niches i) (seasonals i) (trendings i) (draws i) (outcomes i), ?_, ?_⟩
    · simp [get_batch_strategies, List.getElem?_map, List.getElem?_range, hic]
    · rw [herr]
      rfl

/-- Witness data for `fallback_date_spec`: everything errors, target date
differs from today. -/
theorem fallback_date_spec_witness :
    ("2025-01-11" ≠ "2025-01-10") ∧
    ((0 : Nat) < 1) ∧
    ((fun _ : Nat => (Except.error "boom" : Except String Unit)) 0 = Except.error "boom") ∧
    (generate_strategy_for_date default_settings "2025-01-10" "20250110" "2025-01-11"
      "lifestyle" "" [] ⟨0, false, false, 0, 0, 0, 1, 0, 0, 0, 0, 0, 0⟩
      (Except.error "boom")).date ≠ "2025-01-11" ∧
    (∃ st, (get_batch_strategies default_settings "2025-01-10" "20250110"
        (fun d k => d ++ "+" ++ Nat.repr k) 1 (fun _ => "lifestyle") (fun _ => "")
        (fun _ => []) (fun _ => ⟨0, false, false, 0, 0, 0, 1, 0, 0, 0, 0, 0, 0⟩)
        (fun _ => Except.error "boom"))[0]? = some st ∧ st.date = "2025-01-10") :=
  ⟨by decide, by decide, rfl,
   (fallback_date_spec default_settings "2025-01-10" "20250110" "2025-01-11"
      "lifestyle" "" [] ⟨0, false, false, 0, 0, 0, 1, 0, 0, 0, 0, 0, 0⟩ "boom"
      (fun d k => d ++ "+" ++ Nat.repr k) 1 (fun _ => "lifestyle") (fun _ => "")
      (fun _ => []) (fun _ => ⟨0, false, false, 0, 0, 0, 1, 0, 0, 0, 0, 0, 0⟩)
      (fun _ => Except.error "boom") 0).2.2.1 (by decide),
   (fallback_date_spec default_settings "2025-01-10" "20250110" "2025-01-11"
      "lifestyle" "" [] ⟨0, false, false, 0, 0, 0, 1, 0, 0, 0, 0, 0, 0⟩ "boom"
      (fun d k => d ++ "+" ++ Nat.repr k) 1 (fun _ => "lifestyle") (fun _ => "")
      (fun _ => []) (fun _ => ⟨0, false, false, 0, 0, 0, 1, 0, 0, 0, 0, 0, 0⟩)
      (fun _ => Except.error "boom") 0).2.2.2 (by decide) rfl⟩

/-- C4: the niche draw uses exactly the claimed categorical weights — base
1, tripled inside the top 3 of the ranking, doubled inside the top 5 but
outside the top 3, divided by `recent_usage + 1` — and an empty ranking
turns the selection into the uniform draw over all configured niches. -/
theorem select_optimal_niche_spec (s : Settings)
    (top_performing recent_niches : List String) (n : String)
    (weighted_draw : List String → List ℚ → String)
    (uniform_draw : List String → String) :
    niche_weight top_performing recent_niches n =
      (if n ∈ top_performing.take 3 then (3 : ℚ)
        else if n ∈ top_performing.take 5 then 2 else 1) /
        (recent_niches.count n + 1) ∧
    (top_performing = [] →
      select_optimal_niche s top_performing recent_niches weighted_draw uniform_draw
        = uniform_draw s.TARGET_NICHES) ∧
    (top_performing ≠ [] →
      select_optimal_niche s top_performing recent_niches weighted_draw uniform_draw
        = weighted_draw s.TARGET_NICHES
            (s.TARGET_NICHES.map (niche_weight top_performing recent_niches))) := by
  refine ⟨?_, ?_, ?_⟩
  · unfold niche_weight
    by_cases h : recent_niches.count n > 0
    · simp only [h, if_true]
      split_ifs <;> norm_num
    · have h0 : recent_niches.count n = 0 := by omega
      simp only [h0, gt_iff_lt, Nat.lt_irrefl, if_false, Nat.cast_zero, zero_add, div_one]
      split_ifs <;> norm_num
  · intro h
    simp [select_optimal_niche, h]
  · intro h
    simp [select_optimal_niche, List.isEmpty_iff, h]

/-- Witness for `select_optimal_niche_spec`: an empty ranking draws
uniformly, a nonempty one draws with the computed weights. -/
theorem select_optimal_niche_spec_witness :
    select_optimal_niche default_settings [] ["food"]
        (fun l _ => l.headD "") (fun l => l.headD "")
      = (fun l : List String => l.headD "") default_settings.TARGET_NICHES ∧
    select_optimal_niche default_settings ["food"] []
        (fun l _ => l.headD "") (fun l => l.headD "")
      = (fun l _ => l.headD "") default_settings.TARGET_NICHES
          (default_settings.TARGET_NICHES.map (niche_weight ["food"] [])) :=
  ⟨(select_optimal_niche_spec default_settings [] ["food"] "food"
      (fun l _ => l.headD "") (fun l => l.headD "")).2.1 rfl,
   (select_optimal_niche_spec default_settings ["food"] [] "food"
      (fun l _ => l.headD "") (fun l => l.headD "")).2.2 (by decide)⟩

/-- C5: every synthesised strategy satisfies the field-length invariants —
title at most 100 characters, description at most 500, alt text at most
500, at most 8 keywords, at most 10 hashtags — for every configuration,
date, niche, seasonal theme, trending keywords and random draws. -/
theorem synthesize_strategy_invariants (s : Settings)
    (date date_term niche seasonal : String) (trending : List String) (r : Draws) :
    (synthesize_strategy s date date_term niche seasonal trending r).title.length ≤ 100 ∧
    (synthesize_strategy s date date_term niche seasonal trending r).description.length ≤ 500 ∧
    (synthesize_strategy s date date_term niche seasonal trending r).alt_text.length ≤ 500 ∧
    (synthesize_strategy s date date_term niche seasonal trending r).keywords.length ≤ 8 ∧
    (synthesize_strategy s date date_term niche seasonal trending r).hashtags.length ≤ 10 :=
  ⟨str_take_length_le _ _, str_take_length_le _ _, str_take_length_le _ _,
   list_take_length_le _ _, list_take_length_le _ _⟩

/-- C8: the keyword list is a deduplicated subset of the union of the
niche's configured hashtags, the lowercase word-split of the theme, and
the first 3 trending keywords; it has no repeated element and at most 8
elements. -/
theorem generate_keywords_spec (s : Settings) (niche theme : String)
    (trending : List String) (k : String) :
    (generate_keywords s niche theme trending).length ≤ 8 ∧
    (generate_keywords s niche theme trending).Nodup ∧
    (k ∈ generate_keywords s niche theme trending →
      k ∈ (s.get_niche_config niche).hashtags ∨ k ∈ py_split (py_lower theme) ∨
        k ∈ trending.take 3) := by
  refine ⟨list_take_length_le _ _, ?_, ?_⟩
  · exact List.Nodup.sublist (List.take_sublist _ _) (List.nodup_dedup _)
  · intro hk
    have h1 : k ∈ (s.get_niche_config niche).hashtags ++ py_split (py_lower theme)
        ++ trending.take 3 :=
      List.dedup_subset _ (List.take_subset _ _ hk)
    simpa [List.mem_append, or_assoc] using h1

/-- Witness for `generate_keywords_spec`: `#wellness` appears in the
generated keywords for the wellness niche and comes from the union. -/
theorem generate_keywords_spec_witness :
    "#wellness" ∈ (default_settings.get_niche_config "wellness").hashtags ∨
      "#wellness" ∈ py_split (py_lower "mindfulness") ∨
      "#wellness" ∈ ([] : List String).take 3 :=
  (generate_keywords_spec default_settings "wellness" "mindfulness" [] "#wellness").2.2
    (by decide)

/-- C6: the niche ranking contains no niche without recorded engagement
rows (absence of data is exclusion, not a zero score), and any storage
error yields the empty ranking instead of raising. -/
theorem get_top_performing_niches_spec (e : String) (db : AnalyticsDB)
    (cutoff : Nat) (n : String) :
    get_top_performing_niches (Except.error e) cutoff = [] ∧
    (n ∈ get_top_performing_niches (Except.ok db) cutoff →
      niche_engagement_rates db cutoff n ≠ []) := by
  constructor
  · rfl
  · intro hn
    simp only [get_top_performing_niches, top_performing_query, List.mem_map] at hn
    obtain ⟨row, hrow, hfst⟩ := hn
    have hrow2 := List.mem_filter.mp hrow
    have hsorted : row ∈ List.insertionSort (fun a b => avg_desc_le a b = true)
        ((window_niches db cutoff).map (fun m => (m, avg_engagement db cutoff m))) :=
      List.take_subset _ _ hrow2.1
    have hgrouped : row ∈ (window_niches db cutoff).map
        (fun m => (m, avg_engagement db cutoff m)) :=
      (List.perm_insertionSort _ _).mem_iff.mp hsorted
    simp only [List.mem_map] at hgrouped
    obtain ⟨m, _, heq⟩ := hgrouped
    subst heq
    have hm : m = n := hfst
    subst hm
    have hsome : (avg_engagement db cutoff m).isSome = true := hrow2.2
    intro hnil
    rw [avg_engagement, hnil] at hsome
    simp at hsome

/-- Witness for `get_top_performing_niches_spec`: in the concrete store,
`wellness` is ranked and indeed has an engagement row. -/
theorem get_top_performing_niches_spec_witness :
    niche_engagement_rates witness_analytics 0 "wellness" ≠ [] :=
  (get_top_performing_niches_spec "sqlite error" witness_analytics 0 "wellness").2
    (by decide)

/-- C1: when a `ready` prepared-content row exists for the date,
`get_daily_strategy` returns that row's embedded strategy unchanged and
leaves the store untouched — independent of the synthesised candidate —
so a second call for the same date returns the identical strategy. -/
theorem get_daily_strategy_prepared_spec (db : StrategyDB) (today : String)
    (generated : Strategy)
    (h : ∃ r ∈ db.prepared, r.scheduled_date = today ∧ r.status = "ready") :
    (∃ r ∈ db.prepared, r.scheduled_date = today ∧ r.status = "ready" ∧
      get_daily_strategy db today generated = (r.strategy_data, db)) ∧
    (∀ g2 : Strategy, get_daily_strategy db today g2
      = get_daily_strategy db today generated) ∧
    (∀ g2 : Strategy,
      (get_daily_strategy (get_daily_strategy db today generated).2 today g2).1
        = (get_daily_strategy db today generated).1) := by
  obtain ⟨r0, hr0, hd0, hs0⟩ := h
  set rows := db.prepared.filter
    (fun r => r.scheduled_date == today && r.status == "ready") with hrows
  have hmem : r0 ∈ rows := by
    rw [hrows, List.mem_filter]
    exact ⟨hr0, by simp [hd0, hs0]⟩
  rcases hsort : List.insertionSort created_at_le rows with _ | ⟨a, as⟩
  · exfalso
    have hperm := List.perm_insertionSort created_at_le rows
    rw [hsort] at hperm
    rw [hperm.symm.eq_nil] at hmem
    simp at hmem
  · have hga : get_prepared_content_for_date db today = some a := by
      simp only [get_prepared_content_for_date, ← hrows, hsort, List.head?]
    have haRows : a ∈ rows := by
      have hperm := List.perm_insertionSort created_at_le rows
      rw [hsort] at hperm
      exact hperm.mem_iff.mp (List.mem_cons_self a as)
    have haP := List.mem_filter.mp (hrows ▸ haRows)
    have hcond := haP.2
    simp only [Bool.and_eq_true, beq_iff_eq] at hcond
    refine ⟨⟨a, haP.1, hcond.1, hcond.2, ?_⟩, ?_, ?_⟩
    · simp [get_daily_strategy, hga]
    · intro g2
      simp [get_daily_strategy, hga]
    · intro g2
      have h2 : (get_daily_strategy db today generated).2 = db := by
        simp [get_daily_strategy, hga]
      rw [h2]
      simp [get_daily_strategy, hga]

/-- Witness for `get_daily_strategy_prepared_spec` on the concrete store
with one ready row for 2025-01-10. -/
theorem get_daily_strategy_prepared_spec_witness :
    (∃ r ∈ witness_db.prepared, r.scheduled_date = "2025-01-10" ∧ r.status = "ready" ∧
      get_daily_strategy witness_db "2025-01-10" witness_strategy
        = (r.strategy_data, witness_db)) ∧
    (∀ g2 : Strategy, get_daily_strategy witness_db "2025-01-10" g2
      = get_daily_strategy witness_db "2025-01-10" witness_strategy) ∧
    (∀ g2 : Strategy,
      (get_daily_strategy (get_daily_strategy witness_db "2025-01-10" witness_strategy).2
          "2025-01-10" g2).1
        = (get_daily_strategy witness_db "2025-01-10" witness_strategy).1) :=
  get_daily_strategy_prepared_spec witness_db "2025-01-10" witness_strategy
    ⟨witness_row, by simp [witness_db], by decide, by decide⟩

/-- C9 counterexample: with the daily post cap configured to 0, a storage
error in the count query (count treated as 0) still lets the cap block a
weekday post — the gate returns `false`, not `true`. -/
theorem should_post_today_cap_zero_cex :
    should_post_today false 2 (count_posts_today (Except.error "sqlite error")) 0
      = false := rfl

/-- C9 (amended): the gate fails open — an error escaping the gate body
yields `true`, and a failing count query is treated as count 0, so
whenever the configured daily post cap is positive the cap never blocks
posting on a storage error; the weekend-skip check, evaluated first,
still applies. -/
theorem should_post_today_fails_open (e : String) (skip : Bool)
    (weekday cap : Nat) :
    should_post_today_guarded (Except.error e) = true ∧
    count_posts_today (Except.error e) = 0 ∧
    (0 < cap → ¬(skip = true ∧ 5 ≤ weekday) →
      should_post_today skip weekday (count_posts_today (Except.error e)) cap
        = true) ∧
    (skip = true → 5 ≤ weekday →
      should_post_today skip weekday (count_posts_today (Except.error e)) cap
        = false) := by
  refine ⟨rfl, rfl, ?_, ?_⟩
  · intro hcap hno
    have h2 : ¬ (cap ≤ 0) := by omega
    show should_post_today skip weekday 0 cap = true
    cases skip with
    | false => simp [should_post_today, h2]
    | true =>
      have hw : ¬ (5 ≤ weekday) := fun hge => hno ⟨rfl, hge⟩
      simp [should_post_today, hw, h2]
  · intro hs hw
    subst hs
    show should_post_today true weekday 0 cap = false
    simp [should_post_today, hw]

/-- Witness for `should_post_today_fails_open`: cap 3, Wednesday, count
query erroring — the gate still posts; and Saturday with skip-weekends
still blocks. -/
theorem should_post_today_fails_open_witness :
    should_post_today false 2 (count_posts_today (Except.error "sqlite error")) 3
      = true ∧
    should_post_today true 5 (count_posts_today (Except.error "sqlite error")) 3
      = false :=
  ⟨(should_post_today_fails_open "sqlite error" false 2 3).2.2.1 (by decide) (by decide),
   (should_post_today_fails_open "sqlite error" true 5 3).2.2.2 rfl (by decide)⟩
